import Mathlib

/-!
# Verification of the ahkpy window/control query engine

A shallow embedding of `src/ahkpy/window.py` and `src/ahkpy/settings.py`
(the Python.ahk repository).  The external AutoHotkey backend is reached
through a single synchronous entry point `ahk_call`; we model it as an
oracle mapping the call history and the current call to a reply, and every
embedded operation additionally records the trace of issued calls, so that
"no backend command is issued" is a statement about the trace.
-/

set_option maxRecDepth 4096

/-- Arguments passed to a backend command: AHK receives strings, integers,
rationals (Python floats such as timeouts), or Python `None`. -/
inductive Arg where
  | s (v : String)
  | i (v : Int)
  | q (v : Rat)
  | none
deriving DecidableEq

/-- One backend invocation: command name plus arguments
(`ahk_call(cmd, *args)` in `flow.py`). -/
structure Call where
  cmd : String
  args : List Arg
deriving DecidableEq

/-- Values travelling back from the backend (and Python values built from
them).  `ids` models the id collection returned by `WinGet List`; `pos`
models the X/Y/Width/Height record returned by `WinGetPos`/`ControlGetPos`.
Backend window identifiers and style words are taken to be numeric. -/
inductive Py where
  | none
  | int (n : Int)
  | str (v : String)
  | rat (v : Rat)
  | ids (xs : List Int)
  | pos (x y w h : Py)
deriving DecidableEq

/-- Python truthiness of a backend reply. -/
def Py.truthy : Py → Bool
  | .none => false
  | .int n => n != 0
  | .str v => v != ""
  | .rat v => v != 0
  | .ids xs => !xs.isEmpty
  | .pos _ _ _ _ => true

/-- Numeric reading of a backend reply used where the code builds a window
handle or a count out of it (identifiers are numeric). -/
def Py.toId : Py → Int
  | .int n => n
  | _ => 0

/-- An `ahkpy.Error` raised by the backend, carrying its message
(the code compares `err.message` against `1` and `"FAIL"`). -/
structure AhkError where
  message : Py
deriving DecidableEq

/-- Exceptions of the embedded Python code. -/
inductive Exc where
  | ahk (e : AhkError)
  | valueError (msg : String)
  | typeError (msg : String)
deriving DecidableEq

/-- The external backend: a reply for the current call, given the history
of calls issued so far (this lets the backend be stateful). -/
def Oracle : Type := List Call → Call → Except AhkError Py

/-- Thread-local AutoHotkey settings (`settings.py`, class `Settings`).
Seconds are modelled as rationals. -/
structure Settings where
  control_delay : Rat
  key_delay : Rat
  key_duration : Rat
  key_delay_play : Rat
  key_duration_play : Rat
  mouse_delay : Rat
  mouse_delay_play : Rat
  mouse_speed : Int
  send_level : Int
  send_mode : String
  win_delay : Rat
deriving DecidableEq

/-- Embedding of `Settings()` with the dataclass field defaults from `settings.py`. -/
def defaultSettings : Settings :=
  { control_delay := 2 / 100
    key_delay := 1 / 100
    key_duration := -1
    key_delay_play := -1
    key_duration_play := -1
    mouse_delay := 1 / 100
    mouse_delay_play := -1
    mouse_speed := 2
    send_level := 0
    send_mode := "input"
    win_delay := 1 / 10 }

/-- Embedding of `Settings.copy`: `dataclasses.replace(self)` — same field values. -/
def Settings.copy (s : Settings) : Settings := s

/-- Embedding of `optional_ms` from `settings.py`: `None` or negative means "backend
default" (`-1`), otherwise seconds are converted to whole milliseconds
(Python `int()` truncates toward zero; the values reaching it are
non-negative here). -/
def optional_ms : Option Rat → Int
  | Option.none => -1
  | Option.some v => if v < 0 then -1 else Rat.floor (v * 1000)

/-- The tri-state value of a filterable field: `unset` is the
unconstrained sentinel `UNSET`, `none` is Python `None` (the excluded
sentinel), `value` is an actual constraint. -/
inductive FilterVal (α : Type) where
  | unset
  | none
  | value (v : α)
deriving DecidableEq

/-- Embedding of `str()` of a field's payload as it appears in query fragments:
`str(None)` is the four-letter string, `str(UNSET)` never happens inside a
fragment because the code guards on `is not UNSET` first. -/
def FilterVal.pyStr : FilterVal String → String
  | .unset => "UNSET"
  | .none => "None"
  | .value v => v

/-- Embedding of `str()` of an integer field's payload (see `FilterVal.pyStr`). -/
def FilterVal.pyStrInt : FilterVal Int → String
  | .unset => "UNSET"
  | .none => "None"
  | .value v => toString v

/-- Modelled from the spec: the `default(arg, prior, none=UNSET)` helper of
`converters.py` (that file is not under `src/`) — an argument left at the
unconstrained sentinel retains the prior value, any other argument
(including the excluded sentinel `None`) replaces it. -/
def fdefault {α : Type} : FilterVal α → FilterVal α → FilterVal α
  | .unset, prior => prior
  | v, _ => v

/-- Modelled from the spec: `default(str, field, "", none=UNSET)` from
`converters.py` — an unconstrained field serializes to the empty fragment,
otherwise `str()` of its payload. -/
def strDefault : FilterVal String → String
  | .unset => ""
  | v => v.pyStr

/-- Embedding of `TITLE_MATCH_MODES` from `window.py`. -/
def TITLE_MATCH_MODES : List String := ["startswith", "contains", "exact", "regex"]

/-- Membership of a `match` argument in `TITLE_MATCH_MODES` (the sentinels
`UNSET` and `None` are not members). -/
def inTitleModes : FilterVal String → Bool
  | .value m => TITLE_MATCH_MODES.contains m
  | _ => false

/-- The `Windows` filter-specification dataclass (frozen) from
`window.py`, with its twelve fields. -/
structure Windows where
  title : FilterVal String
  class_name : FilterVal String
  id : FilterVal Int
  pid : FilterVal Int
  exe : FilterVal String
  text : FilterVal String
  exclude_title : FilterVal String
  exclude_text : FilterVal String
  hidden_windows : Bool
  hidden_text : Bool
  title_mode : String
  text_mode : String
deriving DecidableEq

/-- Embedding of `Windows()` — the dataclass defaults (the module-level `windows` /
`visible_windows` object). -/
def windowsDefault : Windows :=
  { title := .unset
    class_name := .unset
    id := .unset
    pid := .unset
    exe := .unset
    text := .unset
    exclude_title := .unset
    exclude_text := .unset
    hidden_windows := false
    hidden_text := true
    title_mode := "startswith"
    text_mode := "fast" }

/-- The merged `title_mode` in `Windows.filter`:
`default(match, self.title_mode, none=UNSET)`.  The `none` branch is
unreachable because an excluded-sentinel `match` fails validation first. -/
def mergeTitleMode : FilterVal String → String → String
  | .unset, prior => prior
  | v, _ => v.pyStr

/-- Embedding of `Windows.filter`: returns the receiver when every argument is the
unconstrained sentinel, validates the `match` argument, and otherwise
builds a new value merging the non-unconstrained arguments
(`dataclasses.replace`). -/
def Windows.filter (self : Windows) (title class_name : FilterVal String)
    (id pid : FilterVal Int) (exe text matchArg : FilterVal String) :
    Except Exc Windows :=
  if title = .unset ∧ class_name = .unset ∧ id = .unset ∧ pid = .unset ∧
      exe = .unset ∧ text = .unset ∧ matchArg = .unset then
    .ok self
  else if matchArg ≠ .unset ∧ inTitleModes matchArg = false then
    .error (.valueError (matchArg.pyStr ++ " is not a valid title match mode"))
  else
    .ok { self with
          title := fdefault title self.title
          class_name := fdefault class_name self.class_name
          id := fdefault id self.id
          pid := fdefault pid self.pid
          exe := fdefault exe self.exe
          text := fdefault text self.text
          title_mode := mergeTitleMode matchArg self.title_mode }

/-- Embedding of `Windows.exclude`: merges the exclusion pair, returning the receiver
when both arguments are unconstrained. -/
def Windows.exclude (self : Windows) (title text : FilterVal String) : Windows :=
  if title = .unset ∧ text = .unset then
    self
  else
    { self with
      exclude_title := fdefault title self.exclude_title
      exclude_text := fdefault text self.exclude_text }

/-- Embedding of `Windows.include_hidden_windows`. -/
def Windows.include_hidden_windows (self : Windows) (inc : Bool) : Windows :=
  { self with hidden_windows := inc }

/-- Embedding of `Windows.exclude_hidden_windows`. -/
def Windows.exclude_hidden_windows (self : Windows) : Windows :=
  { self with hidden_windows := false }

/-- Embedding of `Windows.include_hidden_text`. -/
def Windows.include_hidden_text (self : Windows) (inc : Bool) : Windows :=
  { self with hidden_text := inc }

/-- Embedding of `Windows.exclude_hidden_text`. -/
def Windows.exclude_hidden_text (self : Windows) : Windows :=
  { self with hidden_text := false }

/-- Embedding of `Windows.match_text_slow`. -/
def Windows.match_text_slow (self : Windows) (is_slow : Bool) : Windows :=
  if is_slow then { self with text_mode := "slow" }
  else { self with text_mode := "fast" }

/-- Embedding of `" ".join(parts)`. -/
def joinSp : List String → String
  | [] => ""
  | [a] => a
  | a :: rest => a ++ " " ++ joinSp rest

/-- Embedding of `Windows._include`: the joined title criteria and the visible-text
fragment. -/
def Windows.include_ (self : Windows) : String × String :=
  let parts : List String :=
    (match self.title with
     | .unset => []
     | v => [v.pyStr]) ++
    (match self.class_name with
     | .unset => []
     | v => ["ahk_class " ++ v.pyStr]) ++
    (match self.id with
     | .unset => []
     | v => ["ahk_id " ++ v.pyStrInt]) ++
    (match self.pid with
     | .unset => []
     | v => ["ahk_pid " ++ v.pyStrInt]) ++
    (match self.exe with
     | .unset => []
     | v => ["ahk_exe " ++ v.pyStr])
  (joinSp parts, strDefault self.text)

/-- Embedding of `Windows._exclude`: the excluded-title and excluded-text fragments. -/
def Windows.exclude_ (self : Windows) : String × String :=
  (strDefault self.exclude_title, strDefault self.exclude_text)

/-- Embedding of `Windows._query`: the four query fragments, include before exclude. -/
def Windows.query_ (self : Windows) : List String :=
  [self.include_.1, self.include_.2, self.exclude_.1, self.exclude_.2]

/-- The ambient context of an embedded operation: the backend oracle,
the thread's settings (read by `get_settings`), and the Python `hash`
function of the running process restricted to frozen `Windows` values
(value-based, hence a function of the fields). -/
structure Env where
  oracle : Oracle
  settings : Settings
  pyHash : Windows → Int

/-- The embedding monad: an operation reads the environment, threads the
trace of issued backend calls, and either returns a value or raises.  The
trace is kept even when an exception propagates. -/
def AhkM (α : Type) : Type := Env → List Call → Except Exc α × List Call

instance : Monad AhkM where
  pure a := fun _ t => (.ok a, t)
  bind m f := fun env t =>
    match m env t with
    | (.ok a, t1) => f a env t1
    | (.error e, t1) => (.error e, t1)

/-- Run an operation on an environment and an initial trace. -/
def AhkM.run {α : Type} (m : AhkM α) (env : Env) (t : List Call) :
    Except Exc α × List Call := m env t

/-- Raise an exception. -/
def throwExc {α : Type} (e : Exc) : AhkM α := fun _ t => (.error e, t)

/-- Python `try`/`except Error` around an embedded operation: the handler
sees the raised `ahkpy.Error`; other exception kinds propagate. -/
def tryAhk {α : Type} (m : AhkM α) (handler : AhkError → AhkM α) : AhkM α :=
  fun env t =>
    match m env t with
    | (.ok a, t1) => (.ok a, t1)
    | (.error (.ahk e), t1) => handler e env t1
    | (.error e, t1) => (.error e, t1)

/-- Read the environment. -/
def askEnv : AhkM Env := fun env t => (.ok env, t)

/-- Embedding of `ahk_call(cmd, *args)` from `flow.py`: issue one backend command,
record it on the trace, and return the backend's reply (raising the
backend's error as an `ahkpy.Error` when it fails). -/
def ahk_call (cmd : String) (args : List Arg) : AhkM Py := fun env t =>
  let c : Call := ⟨cmd, args⟩
  match env.oracle t c with
  | .ok v => (.ok v, t ++ [c])
  | .error e => (.error (.ahk e), t ++ [c])

/-- Embedding of `_set_title_match_mode` from `window.py`: dispatch the mode to
`SetTitleMatchMode`, or raise a `ValueError` (issuing nothing) for an
unknown mode. -/
def setTitleMatchMode (title_mode : String) : AhkM Unit := do
  if title_mode = "startswith" then
    discard <| ahk_call "SetTitleMatchMode" [.i 1]
  else if title_mode = "contains" then
    discard <| ahk_call "SetTitleMatchMode" [.i 2]
  else if title_mode = "exact" then
    discard <| ahk_call "SetTitleMatchMode" [.i 3]
  else if title_mode = "regex" then
    discard <| ahk_call "SetTitleMatchMode" [.s "regex"]
  else
    throwExc (.valueError (title_mode ++ " is not a valid title match mode"))

/-- The early-return guard of `Windows._call`: true when one of the six
filterable fields set by `filter()` carries the excluded sentinel. -/
def Windows.queryingNone (self : Windows) : Bool :=
  self.title = FilterVal.none ∨ self.class_name = FilterVal.none ∨
    self.id = FilterVal.none ∨ self.pid = FilterVal.none ∨
    self.exe = FilterVal.none ∨ self.text = FilterVal.none

/-- The `DetectHiddenWindows` configuration write of `Windows._call`. -/
def hiddenWindowsStep (hidden_windows : Bool) : AhkM PUnit :=
  if hidden_windows then
    discard <| ahk_call "DetectHiddenWindows" [.s "On"]
  else
    discard <| ahk_call "DetectHiddenWindows" [.s "Off"]

/-- The `DetectHiddenText` configuration write of `Windows._call`,
issued only when text constraints are present. -/
def hiddenTextStep (self : Windows) : AhkM PUnit :=
  if self.text ≠ FilterVal.unset ∨ self.exclude_text ≠ FilterVal.unset then
    if self.hidden_text then
      discard <| ahk_call "DetectHiddenText" [.s "On"]
    else
      discard <| ahk_call "DetectHiddenText" [.s "Off"]
  else
    pure PUnit.unit

/-- The text-match-speed configuration write of `Windows._call`
(`SetTitleMatchMode fast/slow`), raising on an invalid stored speed. -/
def textModeStep (text_mode : String) : AhkM PUnit :=
  if text_mode = "fast" then
    discard <| ahk_call "SetTitleMatchMode" [.s "fast"]
  else if text_mode = "slow" then
    discard <| ahk_call "SetTitleMatchMode" [.s "slow"]
  else
    throwExc (.valueError (text_mode ++ " is not a valid text match mode"))

/-- The optional `SetWinDelay` write of `Windows._call`
(`set_delay=True`). -/
def setDelayStep (set_delay : Bool) : AhkM PUnit :=
  if set_delay then
    askEnv >>= fun env =>
      discard (ahk_call "SetWinDelay" [.i (optional_ms (some env.settings.win_delay))])
  else
    pure PUnit.unit

/-- Embedding of `Windows._call`: return `None` without touching the backend when the
spec queries a non-existent window's attribute; otherwise configure the
backend (hidden windows, hidden text when text constraints exist, title
match mode, text match speed, optionally the window delay) and issue the
command, all under the global lock. -/
def Windows.pyCall (self : Windows) (cmd : String) (args : List Arg)
    (set_delay : Bool) : AhkM Py :=
  if self.queryingNone then
    pure Py.none
  else
    hiddenWindowsStep self.hidden_windows >>= fun _ =>
    hiddenTextStep self >>= fun _ =>
    setTitleMatchMode self.title_mode >>= fun _ =>
    textModeStep self.text_mode >>= fun _ =>
    setDelayStep set_delay >>= fun _ =>
    ahk_call cmd args

/-- The window handle built from a backend reply: `Window(win_id or 0)`. -/
def windowOf (v : Py) : Int :=
  (if v.truthy then v else Py.int 0).toId

/-- The `Window` handle dataclass: one opaque numeric identifier,
`0` being the invalid sentinel. -/
structure Window where
  id : Int
deriving DecidableEq

/-- The `Control` handle dataclass. -/
structure Control where
  id : Int
deriving DecidableEq

/-- Embedding of `Windows.exist` (a.k.a. `first`/`top`): `WinExist` on the query,
`Window(win_id or 0)`. -/
def Windows.exist (self : Windows) : AhkM Window := do
  let v ← self.pyCall "WinExist" (self.query_.map Arg.s) false
  pure ⟨windowOf v⟩

/-- Embedding of `Windows.last` (a.k.a. `bottom`): `WinGet IDLast`. -/
def Windows.last (self : Windows) : AhkM Window := do
  let v ← self.pyCall "WinGet" (Arg.s "IDLast" :: self.query_.map Arg.s) false
  pure ⟨windowOf v⟩

/-- The query actually sent by `Windows.get_active`: the serialized query,
except that a fully empty query is replaced by the active-window
designator `"A"`. -/
def Windows.activeQuery (self : Windows) : List String :=
  let q := self.query_
  if q = ["", "", "", ""] then ["A", "", "", ""] else q

/-- Embedding of `Windows.get_active`: `WinActive` on `activeQuery`. -/
def Windows.get_active (self : Windows) : AhkM Window := do
  let v ← self.pyCall "WinActive" (self.activeQuery.map Arg.s) false
  pure ⟨windowOf v⟩

/-- Embedding of `Windows.__len__`: `WinGet Count` with `or 0`. -/
def Windows.length (self : Windows) : AhkM Int := do
  let v ← self.pyCall "WinGet" (Arg.s "Count" :: self.query_.map Arg.s) false
  pure (windowOf v)

/-- Embedding of `Windows.__iter__`: `WinGet List`; a `None` reply yields the empty
sequence, otherwise one `Window` per returned id. -/
def Windows.iterate (self : Windows) : AhkM (List Window) := do
  let v ← self.pyCall "WinGet" (Arg.s "List" :: self.query_.map Arg.s) false
  match v with
  | Py.none => pure []
  | Py.ids xs => pure (xs.map Window.mk)
  | _ => throwExc (.typeError "win_ids is not a collection")

/-- The `timeout or \"\"` argument of the wait commands (Python falsiness:
`None` and `0` both serialize to the empty string). -/
def timeoutOrEmpty : Option Rat → Arg
  | Option.none => .s ""
  | Option.some v => if v = 0 then .s "" else .q v

/-- A timeout argument passed through unchanged (`None` stays `None`). -/
def timeoutRaw : Option Rat → Arg
  | Option.none => .none
  | Option.some v => .q v

/-- Embedding of `Windows._wait`: issue the blocking wait command under the lock;
a `None` or truthy (timed out) reply yields `Window(0)`, otherwise the
last-found-window register is read back via `windows.first()`. -/
def Windows.waitImpl (self : Windows) (cmd : String) (timeout : Option Rat) :
    AhkM Window := do
  let timed_out ← self.pyCall cmd
    ([Arg.s self.include_.1, Arg.s self.include_.2, timeoutOrEmpty timeout,
      Arg.s self.exclude_.1, Arg.s self.exclude_.2]) true
  if timed_out = Py.none ∨ timed_out.truthy then
    pure ⟨0⟩
  else
    windowsDefault.exist

/-- Embedding of `Windows.wait`. -/
def Windows.wait (self : Windows) (timeout : Option Rat) : AhkM Window :=
  self.waitImpl "WinWait" timeout

/-- Embedding of `Windows.wait_active`. -/
def Windows.wait_active (self : Windows) (timeout : Option Rat) : AhkM Window :=
  self.waitImpl "WinWaitActive" timeout

/-- Embedding of `Windows.wait_inactive`. -/
def Windows.wait_inactive (self : Windows) (timeout : Option Rat) : AhkM Window :=
  self.waitImpl "WinWaitNotActive" timeout

/-- Embedding of `Windows.wait_close`: `WinWaitClose` does not set the last-found
window; the result is `not timed_out`, and a `None` reply (excluded
sentinel in the query) yields `True` because the matching window does not
exist, which is what is being waited for. -/
def Windows.wait_close (self : Windows) (timeout : Option Rat) : AhkM Bool := do
  let timed_out ← self.pyCall "WinWaitClose"
    ([Arg.s self.include_.1, Arg.s self.include_.2, timeoutOrEmpty timeout,
      Arg.s self.exclude_.1, Arg.s self.exclude_.2]) true
  pure (!timed_out.truthy)

/-- Embedding of `Windows.close` (an action): `WinClose` with the raw timeout. -/
def Windows.close (self : Windows) (timeout : Option Rat) : AhkM Unit := do
  discard <| self.pyCall "WinClose"
    ([Arg.s self.include_.1, Arg.s self.include_.2, timeoutRaw timeout,
      Arg.s self.exclude_.1, Arg.s self.exclude_.2]) true

/-- Embedding of `Windows.hide` (an action): `WinHide` on the query. -/
def Windows.hide (self : Windows) : AhkM Unit := do
  discard <| self.pyCall "WinHide" (self.query_.map Arg.s) true

/-- The group name derived in `Windows._group_action`:
`str(hash(self)).replace("-", "m")`. -/
def groupName (pyHash : Windows → Int) (self : Windows) : String :=
  (toString (pyHash self)).replace "-" "m"

/-- Embedding of `Windows._group_action`: minimizing with the match-all filter becomes
`WinMinimizeAll`; otherwise a backend group named after the spec's hash is
(re)built with `GroupAdd` and the action is replayed on the group; with a
timeout the result is `not self.exist()`. -/
def Windows.group_action (self : Windows) (cmd : String) (timeout : Option Rat) :
    AhkM (Option Bool) := do
  if self = windowsDefault ∧ cmd = "WinMinimize" then
    discard <| self.pyCall "WinMinimizeAll" [] true
    pure Option.none
  else
    let env ← askEnv
    let query_hash_str := groupName env.pyHash self
    discard <| self.pyCall "GroupAdd"
      [Arg.s query_hash_str, Arg.s self.include_.1, Arg.s self.include_.2,
       Arg.s "", Arg.s self.exclude_.1, Arg.s self.exclude_.2] false
    discard <| self.pyCall cmd
      [Arg.s ("ahk_group " ++ query_hash_str), Arg.s "", timeoutRaw timeout] true
    match timeout with
    | Option.none => pure Option.none
    | Option.some _ => do
        let w ← self.exist
        pure (Option.some (w.id == 0))

/-- Embedding of `Windows.close_all`. -/
def Windows.close_all (self : Windows) (timeout : Option Rat) : AhkM (Option Bool) :=
  self.group_action "WinClose" timeout

/-- Embedding of `Windows.hide_all`. -/
def Windows.hide_all (self : Windows) : AhkM (Option Bool) :=
  self.group_action "WinHide" Option.none

/-- Embedding of `Windows.kill_all`. -/
def Windows.kill_all (self : Windows) (timeout : Option Rat) : AhkM (Option Bool) :=
  self.group_action "WinKill" timeout

/-- Embedding of `Windows.maximize_all`. -/
def Windows.maximize_all (self : Windows) : AhkM (Option Bool) :=
  self.group_action "WinMaximize" Option.none

/-- Embedding of `Windows.minimize_all`. -/
def Windows.minimize_all (self : Windows) : AhkM (Option Bool) :=
  self.group_action "WinMinimize" Option.none

/-- Embedding of `Windows.restore_all`. -/
def Windows.restore_all (self : Windows) : AhkM (Option Bool) :=
  self.group_action "WinRestore" Option.none

/-- Embedding of `Windows.show_all`. -/
def Windows.show_all (self : Windows) : AhkM (Option Bool) :=
  self.group_action "WinShow" Option.none

/-- Embedding of `Window._set_delay`: `SetWinDelay` from the thread's settings. -/
def winDelayAct : AhkM Unit := do
  let env ← askEnv
  discard <| ahk_call "SetWinDelay" [.i (optional_ms (some env.settings.win_delay))]

/-- Embedding of `Control._set_delay`: `SetControlDelay` from the thread's settings. -/
def ctlDelayAct : AhkM Unit := do
  let env ← askEnv
  discard <| ahk_call "SetControlDelay" [.i (optional_ms (some env.settings.control_delay))]

/-- Embedding of `WindowHandle._include`: the `ahk_id` fragment and an empty
window-text fragment. -/
def handleIncludeArgs (id : Int) : List Arg :=
  [.s ("ahk_id " ++ toString id), .s ""]

/-- Embedding of `WindowHandle._call`: return `None` without contacting the backend
when the identifier is the invalid sentinel `0` (optional chaining);
otherwise configure hidden-window detection, optionally the title match
mode and the delay, and issue the command. -/
def handleCall (id : Int) (cmd : String) (args : List Arg) (hidden_windows : Bool)
    (title_mode : Option String) (delay : Option (AhkM Unit)) : AhkM Py := do
  if id = 0 then
    pure Py.none
  else
    if hidden_windows then
      discard <| ahk_call "DetectHiddenWindows" [.s "On"]
    else
      discard <| ahk_call "DetectHiddenWindows" [.s "Off"]
    match title_mode with
    | Option.some m => setTitleMatchMode m
    | Option.none => pure ()
    match delay with
    | Option.some d => d
    | Option.none => pure ()
    ahk_call cmd args

/-- Embedding of `BaseWindow.exists` through the base `_call`:
`bool(self._call("WinExist", *self._include()))`. -/
def baseExists (id : Int) : AhkM Bool := do
  let v ← handleCall id "WinExist" (handleIncludeArgs id) true Option.none Option.none
  pure v.truthy

/-- Embedding of `Window._call` = `WindowHandle._call` with the window delay. -/
def Window.call (w : Window) (cmd : String) (args : List Arg) (hidden_windows : Bool)
    (title_mode : Option String) (set_delay : Bool) : AhkM Py :=
  handleCall w.id cmd args hidden_windows title_mode
    (if set_delay then Option.some winDelayAct else Option.none)

/-- Embedding of `Window.exists`. -/
def Window.exists (w : Window) : AhkM Bool := baseExists w.id

/-- Embedding of `Control._call`: the base `_call`, converting a backend error with
message `1` into `None` when the control turns out not to exist.  (The
existence probe is `super().exists`; its inner `WinExist` query is
embedded through the base `_call` — in Python an `Error(1)` raised by the
probe itself would re-enter this handler.) -/
def Control.call (c : Control) (cmd : String) (args : List Arg) (hidden_windows : Bool)
    (title_mode : Option String) (set_delay : Bool) : AhkM Py :=
  tryAhk
    (handleCall c.id cmd args hidden_windows title_mode
      (if set_delay then Option.some ctlDelayAct else Option.none))
    (fun err =>
      if err.message = Py.int 1 then do
        let ex ← baseExists c.id
        if !ex then pure Py.none else throwExc (.ahk err)
      else throwExc (.ahk err))

/-- Embedding of `Control.exists` (`BaseWindow.exists` dispatching through
`Control._call`). -/
def Control.existsP (c : Control) : AhkM Bool := do
  let v ← c.call "WinExist" (handleIncludeArgs c.id) true Option.none false
  pure v.truthy

/-- Embedding of `Window._get`: `WinGet` on the handle; an empty-string reply becomes
`None`. -/
def Window.get_ (w : Window) (subcmd : String) : AhkM Py := do
  let r ← w.call "WinGet" (Arg.s subcmd :: handleIncludeArgs w.id) true Option.none false
  pure (if r = Py.str "" then Py.none else r)

/-- Embedding of `WindowStyle.DISABLED` (`WS_DISABLED`). -/
def WindowStyle.DISABLED : Int := 0x08000000

/-- Embedding of `WindowStyle.VISIBLE` (`WS_VISIBLE`). -/
def WindowStyle.VISIBLE : Int := 0x10000000

/-- Embedding of `BaseWindow.style` for a `Window`: `None` when the style read yields
no value, otherwise the numeric style word (`WindowStyle(style)`). -/
def Window.style (w : Window) : AhkM (Option Int) := do
  let s ← w.get_ "Style"
  match s with
  | Py.none => pure Option.none
  | Py.int n => pure (Option.some n)
  | _ => throwExc (.valueError "invalid style word")

/-- Embedding of `BaseWindow.is_enabled` for a `Window`: `None` when the style is
absent, otherwise `WindowStyle.DISABLED not in style`. -/
def Window.is_enabled (w : Window) : AhkM (Option Bool) := do
  let st ← w.style
  match st with
  | Option.none => pure Option.none
  | Option.some s =>
      pure (Option.some (!(Int.land s WindowStyle.DISABLED == WindowStyle.DISABLED)))

/-- Embedding of `BaseWindow.is_visible` for a `Window`: `False` when the style is
absent, otherwise `WindowStyle.VISIBLE in style`. -/
def Window.is_visible (w : Window) : AhkM Bool := do
  let st ← w.style
  match st with
  | Option.none => pure false
  | Option.some s => pure (Int.land s WindowStyle.VISIBLE == WindowStyle.VISIBLE)

/-- Embedding of `Window._get_pos`: `WinGetPos` on the handle. -/
def Window.get_pos (w : Window) : AhkM Py :=
  w.call "WinGetPos" (handleIncludeArgs w.id) true Option.none false

/-- A coordinate out of a `WinGetPos` record: numeric components are
kept, an empty-string component (vanished window) becomes `None`. -/
def pyCoord : Py → Option Int
  | Py.int n => Option.some n
  | _ => Option.none

/-- Embedding of `BaseWindow.rect` for a `Window`: the whole (x, y, width, height)
tuple from one `WinGetPos`, all-`None` when the reply is `None`. -/
def Window.rect (w : Window) : AhkM (Option Int × Option Int × Option Int × Option Int) := do
  let result ← w.get_pos
  match result with
  | Py.pos px py pw ph => pure (pyCoord px, pyCoord py, pyCoord pw, pyCoord ph)
  | Py.none => pure (Option.none, Option.none, Option.none, Option.none)
  | _ => throwExc (.typeError "WinGetPos reply is not a record")

/-- Embedding of `default(int, v, "")` from `converters.py` for `BaseWindow.move`:
an omitted coordinate serializes to the empty string. -/
def intDefault : Option Int → Arg
  | Option.none => .s ""
  | Option.some n => .i n

/-- Embedding of `Window._move`: `WinMove` with the four (possibly empty) coordinates,
with the window delay. -/
def Window.moveRaw (w : Window) (x y wd ht : Arg) : AhkM Unit := do
  discard <| w.call "WinMove"
    (handleIncludeArgs w.id ++ [x, y, wd, ht]) true Option.none true

/-- Embedding of `BaseWindow.move` for a `Window`. -/
def Window.move (w : Window) (x y width height : Option Int) : AhkM Unit :=
  w.moveRaw (intDefault x) (intDefault y) (intDefault width) (intDefault height)

/-- The `x` property getter: re-fetches the whole rectangle. -/
def Window.x (w : Window) : AhkM (Option Int) := do
  let r ← w.rect
  pure r.1

/-- The `y` property getter. -/
def Window.y (w : Window) : AhkM (Option Int) := do
  let r ← w.rect
  pure r.2.1

/-- The `width` property getter. -/
def Window.width (w : Window) : AhkM (Option Int) := do
  let r ← w.rect
  pure r.2.2.1

/-- The `height` property getter. -/
def Window.height (w : Window) : AhkM (Option Int) := do
  let r ← w.rect
  pure r.2.2.2

/-- The `x` property setter: delegates to `move`. -/
def Window.set_x (w : Window) (v : Option Int) : AhkM Unit :=
  w.move v Option.none Option.none Option.none

/-- The `y` property setter: delegates to `move`. -/
def Window.set_y (w : Window) (v : Option Int) : AhkM Unit :=
  w.move Option.none v Option.none Option.none

/-- Embedding of `Window.wait_active`: a `None` reply (invalid handle) is `False`, a
timed-out reply is `False`, success is `True`. -/
def Window.wait_active (w : Window) (timeout : Option Rat) : AhkM Bool := do
  let timed_out ← w.call "WinWaitActive"
    (handleIncludeArgs w.id ++ [timeoutRaw timeout]) true Option.none true
  if timed_out = Py.none then pure false else pure (!timed_out.truthy)

/-- Embedding of `Window.wait_inactive`: a `None` reply is `True`. -/
def Window.wait_inactive (w : Window) (timeout : Option Rat) : AhkM Bool := do
  let timed_out ← w.call "WinWaitNotActive"
    (handleIncludeArgs w.id ++ [timeoutRaw timeout]) true Option.none true
  if timed_out = Py.none then pure true else pure (!timed_out.truthy)

/-- Embedding of `Window.wait_hidden`: `WinWaitClose` with hidden windows not
detected; a `None` reply is `True`. -/
def Window.wait_hidden (w : Window) (timeout : Option Rat) : AhkM Bool := do
  let timed_out ← w.call "WinWaitClose"
    (handleIncludeArgs w.id ++ [timeoutRaw timeout]) false Option.none true
  if timed_out = Py.none then pure true else pure (!timed_out.truthy)

/-- Embedding of `Window.wait_close`: a `None` reply is `True`. -/
def Window.wait_close (w : Window) (timeout : Option Rat) : AhkM Bool := do
  let timed_out ← w.call "WinWaitClose"
    (handleIncludeArgs w.id ++ [timeoutRaw timeout]) true Option.none true
  if timed_out = Py.none then pure true else pure (!timed_out.truthy)

/-- Embedding of `Control._get`: `ControlGet` on the handle (the raw reply, unlike
`Window._get`). -/
def Control.get_ (c : Control) (subcmd value : String) : AhkM Py :=
  c.call "ControlGet"
    ([Arg.s subcmd, Arg.s value, Arg.s ""] ++ handleIncludeArgs c.id)
    true Option.none false

/-- Numeric reading of a backend reply where the Python code uses it as a
count or index (`None` stays absent). -/
def Py.toOptInt : Py → Option Int
  | Py.int n => Option.some n
  | _ => Option.none

/-- Substring test (Python `needle in hay`). -/
def strContains (hay needle : String) : Bool :=
  decide (needle.toList <:+: hay.toList)

/-- Embedding of `BaseWindow.class_name` for a `Control`: an empty-string reply (no
such window, or a problem getting the class name) becomes `None`. -/
def Control.class_name (c : Control) : AhkM (Option String) := do
  let v ← c.call "WinGetClass" (handleIncludeArgs c.id) true Option.none false
  match v with
  | Py.none => pure Option.none
  | Py.str s => if s = "" then pure Option.none else pure (Option.some s)
  | _ => throwExc (.typeError "class name is not a string")

/-- Embedding of `CB_GETCOUNT`. -/
def CB_GETCOUNT : Int := 0x146

/-- Embedding of `LB_GETCOUNT`. -/
def LB_GETCOUNT : Int := 0x18B

/-- Embedding of `BaseWindow.send_message` for a `Control`: a backend `FAIL` against a
non-existent target is absorbed to `None` after re-confirming
non-existence; a genuine failure is re-raised with a clarified message. -/
def Control.send_message (c : Control) (msg w_param l_param : Int) (timeout : Rat) :
    AhkM Py :=
  tryAhk
    (c.call "SendMessage"
      ([Arg.i msg, Arg.i w_param, Arg.i l_param, Arg.s ""] ++
        handleIncludeArgs c.id ++
        [Arg.s "", Arg.s "", Arg.i (Rat.floor (timeout * 1000))])
      true Option.none false)
    (fun err =>
      if err.message = Py.str "FAIL" then do
        let ex ← c.existsP
        if !ex then pure Py.none
        else throwExc (.ahk ⟨Py.str "there was a problem sending message or response timed out"⟩)
      else throwExc (.ahk err))

/-- Embedding of `Control._count_list_items`: absorbed to `None` when the control is
not a ListView, otherwise re-raised with a clarified message. -/
def Control.count_list_items (c : Control) (opt : String) : AhkM Py :=
  tryAhk (c.get_ "List" ("Count " ++ opt))
    (fun err =>
      if err.message = Py.int 1 then do
        match ← c.class_name with
        | Option.none =>
            -- Python: `None.lower()` raises AttributeError
            throwExc (.typeError "NoneType has no attribute lower")
        | Option.some cn =>
            if !(strContains cn.toLower "syslistview32") then pure Py.none
            else throwExc (.ahk ⟨Py.str "there was a problem getting list items"⟩)
      else throwExc (.ahk err))

/-- Embedding of `Control.list_item_count`: classify by class name (`None` when the
class name is absent or the control is not a list control), then count
through `ControlGet List` or the matching get-count message. -/
def Control.list_item_count (c : Control) : AhkM (Option Int) := do
  match ← c.class_name with
  | Option.none => pure Option.none
  | Option.some cn =>
      let lower := cn.toLower
      if strContains lower "syslistview32" then do
        let v ← c.count_list_items ""
        pure v.toOptInt
      else if strContains lower "combo" then do
        let r ← c.send_message CB_GETCOUNT 0 0 5
        pure r.toOptInt
      else if strContains lower "list" then do
        let r ← c.send_message LB_GETCOUNT 0 0 5
        pure r.toOptInt
      else
        pure Option.none

/-- The `Control, Choose` command of `Control.choose_item_index`, with
its error handler (which re-raises on every path, after comparing the
count — a comparison that itself fails on an absent count). -/
def Control.chooseCall (c : Control) (index : Int) : AhkM Unit :=
  tryAhk (discard <| c.call "Control" [Arg.s "Choose", Arg.i (index + 1)]
      true Option.none true)
    (fun err =>
      if err.message = Py.int 1 then do
        match ← c.list_item_count with
        | Option.none =>
            -- Python: `None < int` raises TypeError
            throwExc (.typeError "unorderable types: NoneType and int")
        | Option.some n =>
            if n < index + 1 then throwExc (.ahk err) else throwExc (.ahk err)
      else throwExc (.ahk err))

/-- Embedding of `Control.choose_item_index`: a negative index is first translated
through `self.list_item_count + index` — in Python an absent count makes
this `None + int`, a TypeError. -/
def Control.choose_item_index (c : Control) (index : Int) : AhkM Unit := do
  if index < 0 then
    match ← c.list_item_count with
    | Option.none =>
        throwExc (.typeError "unsupported operand types: NoneType and int")
    | Option.some n => c.chooseCall (n + index)
  else
    c.chooseCall index

/-- A heap of `Settings` objects, with references as indices: Python
settings objects are mutable and aliased, so restoration on scope exit is
a statement about references, not just values. -/
abbrev SettingsHeap : Type := List Settings

/-- Dereference (unallocated references never arise in the modelled
runs). -/
def SettingsHeap.fetch (h : SettingsHeap) (r : Nat) : Settings :=
  List.getD h r defaultSettings

/-- Mutate the object behind a reference. -/
def SettingsHeap.write (h : SettingsHeap) (r : Nat) (s : Settings) : SettingsHeap :=
  List.set h r s

/-- Allocate a fresh object. -/
def SettingsHeap.alloc (h : SettingsHeap) (s : Settings) : SettingsHeap × Nat :=
  (h ++ [s], List.length h)

/-- Embedding of `_SettingsManager` from `settings.py`: a reference to the scope's own
settings copy, and (once activated) the reference that was current before
entry. -/
structure SettingsManager where
  new_settings : Nat
  prior_settings : Option Nat

/-- Embedding of `_SettingsManager.__init__`: `self.new_settings = new_settings.copy()`
— a fresh object with the same field values. -/
def SettingsManager.init (h : SettingsHeap) (settings : Nat) :
    SettingsHeap × SettingsManager :=
  let a := h.alloc (h.fetch settings)
  (a.1, ⟨a.2, Option.none⟩)

/-- Embedding of `_SettingsManager.activate` (`__enter__`): remember the current
settings reference, install the scope's copy, and hand that copy to the
body. -/
def SettingsManager.activate (m : SettingsManager) (ambient : Nat) :
    SettingsManager × Nat × Nat :=
  ({ m with prior_settings := Option.some ambient }, m.new_settings, m.new_settings)

/-- Embedding of `_SettingsManager.__exit__`: re-install the prior settings reference
(the `with` statement runs this on both the normal and the raising exit
path; the manager is always activated first). -/
def SettingsManager.exitScope (m : SettingsManager) (ambient : Nat) : Nat :=
  match m.prior_settings with
  | Option.some p => p
  | Option.none => ambient

/-- A full `with local_settings() as settings: body` run over the thread
state `(heap, ambient reference)`: the body mutates the scoped object
through the reference it was handed and either completes (`raises =
false`) or raises (`raises = true`); `__exit__` runs on both paths and an
exception then propagates. -/
def localSettingsRun (h : SettingsHeap) (ambient : Nat)
    (mutate : Settings → Settings) (raises : Bool) :
    SettingsHeap × Nat × Bool :=
  let start := SettingsManager.init h ambient
  let h1 := start.1
  let act := start.2.activate ambient
  let m2 := act.1
  let amb1 := act.2.1
  let scopedRef := act.2.2
  let h2 := h1.write scopedRef (mutate (h1.fetch scopedRef))
  let amb2 := m2.exitScope amb1
  (h2, amb2, raises)

/-- Modelled from the spec: how a `WinMove` argument updates one stored
coordinate on the external backend — "derived single-field accessors …
delegate to `move` for writes, since no partial-field backend command
exists"; an empty argument leaves the coordinate unchanged. -/
def applyArg (a : Arg) (old : Int) : Int :=
  match a with
  | .i v => v
  | _ => old

/-- Modelled from the spec: the effect of one backend call on the stored
rectangle of window `wid`. -/
def applyMoveCall (wid : Int) (r : Int × Int × Int × Int) (k : Call) :
    Int × Int × Int × Int :=
  if k.cmd = "WinMove" then
    match k.args with
    | [t, _, ax, ay, aw, ah] =>
        if t = Arg.s ("ahk_id " ++ toString wid) then
          (applyArg ax r.1, applyArg ay r.2.1, applyArg aw r.2.2.1, applyArg ah r.2.2.2)
        else r
    | _ => r
  else r

/-- Modelled from the spec: a backend holding one window `wid` whose
rectangle starts as `r0`; `WinMove` updates the provided coordinates and
`WinGetPos` reports the current rectangle ("the rectangle … is fetched as
one atomic 4-tuple"). -/
def rectOracle (wid : Int) (r0 : Int × Int × Int × Int) : Oracle := fun hist c =>
  if c.cmd = "WinGetPos" ∧ c.args.head? = some (Arg.s ("ahk_id " ++ toString wid)) then
    let cur := hist.foldl (applyMoveCall wid) r0
    .ok (.pos (.int cur.1) (.int cur.2.1) (.int cur.2.2.1) (.int cur.2.2.2))
  else
    .ok .none

/-- An environment whose backend replies with the fixed value `v` to
every command (`.int 1`: every wait reports a timeout; `.int 0`: every
query reports no match). -/
def constEnv (v : Py) (st : Settings) (hf : Windows → Int) : Env :=
  ⟨fun _ _ => .ok v, st, hf⟩

/-- A minimal concrete environment for closed evaluations. -/
def env0 : Env := constEnv (Py.int 0) defaultSettings (fun _ => 0)

/-- A spec whose `title` field carries the excluded sentinel `None`. -/
def specTitleNone : Windows := { windowsDefault with title := FilterVal.none }

/-- A spec constrained by an *empty-string* title: not the fully
unconstrained spec, yet its serialized query is all-empty. -/
def specEmptyTitle : Windows := { windowsDefault with title := FilterVal.value "" }

/-- A backend distinguishing the active-window designator query
(`WinActive "A"` replies with window 42) from every other `WinActive`
query (window 7). -/
def activeProbeOracle : Oracle := fun _ c =>
  if c = ⟨"WinActive", [Arg.s "A", Arg.s "", Arg.s "", Arg.s ""]⟩ then .ok (Py.int 42)
  else if c.cmd = "WinActive" then .ok (Py.int 7)
  else .ok Py.none

/-- Environment around `activeProbeOracle`. -/
def envProbe : Env := ⟨activeProbeOracle, defaultSettings, fun _ => 0⟩

/-- An operation that, under `env`, completes without raising from every
starting trace. -/
def OkRun {α : Type} (m : AhkM α) (env : Env) : Prop :=
  ∀ tr, ∃ a tr2, m.run env tr = (.ok a, tr2)

/-- An operation that, under `env`, produces exactly the outcome `x` from
every starting trace. -/
def RunsTo {α : Type} (m : AhkM α) (env : Env) (x : Except Exc α) : Prop :=
  ∀ tr, ∃ tr2, m.run env tr = (x, tr2)

/-! ## Run lemmas for the embedding monad -/

theorem run_pure {α : Type} (a : α) (env : Env) (t : List Call) :
    (pure a : AhkM α).run env t = (.ok a, t) := rfl

theorem run_bind {α β : Type} (m : AhkM α) (f : α → AhkM β) (env : Env) (t : List Call) :
    (m >>= f).run env t =
      match m.run env t with
      | (.ok a, t1) => (f a).run env t1
      | (.error e, t1) => (.error e, t1) := rfl

theorem run_discard {α : Type} (m : AhkM α) (env : Env) (t : List Call) :
    (discard m).run env t =
      match m.run env t with
      | (.ok _, t1) => (.ok PUnit.unit, t1)
      | (.error e, t1) => (.error e, t1) := rfl

theorem run_throw {α : Type} (e : Exc) (env : Env) (t : List Call) :
    (throwExc e : AhkM α).run env t = (.error e, t) := rfl

theorem run_askEnv (env : Env) (t : List Call) :
    askEnv.run env t = (.ok env, t) := rfl

theorem run_ahk_call (cmd : String) (args : List Arg) (env : Env) (t : List Call) :
    (ahk_call cmd args).run env t =
      match env.oracle t ⟨cmd, args⟩ with
      | .ok v => (.ok v, t ++ [⟨cmd, args⟩])
      | .error e => (.error (.ahk e), t ++ [⟨cmd, args⟩]) := rfl

theorem run_tryAhk {α : Type} (m : AhkM α) (handler : AhkError → AhkM α)
    (env : Env) (t : List Call) :
    (tryAhk m handler).run env t =
      match m.run env t with
      | (.ok a, t1) => (.ok a, t1)
      | (.error (.ahk e), t1) => (handler e).run env t1
      | (.error e, t1) => (.error e, t1) := rfl

/-- Embedding of `Windows._call` on a spec with an excluded-sentinel field: `None`
back, nothing issued. -/
theorem pyCall_queryingNone (spec : Windows) (cmd : String) (args : List Arg)
    (sd : Bool) (env : Env) (tr : List Call) (hN : spec.queryingNone = true) :
    (spec.pyCall cmd args sd).run env tr = (.ok Py.none, tr) := by
  unfold Windows.pyCall
  rw [if_pos hN]
  rfl

/-! ## C1 -/

/-- C1: the sentinel-handle guard of `WindowHandle._call` does return a
neutral `None` without a backend call, but the claim's universal form
fails: `Control(0).choose_item_index(-1)` translates the negative index
through `self.list_item_count + index`, and with the sentinel handle
`list_item_count` is `None`, so Python raises a `TypeError`
(`None + int`) instead of returning a neutral value. -/
theorem c1_choose_item_index_sentinel_crash (env : Env) (tr : List Call) :
    ((Control.mk 0).choose_item_index (-1)).run env tr =
      (.error (.typeError "unsupported operand types: NoneType and int"), tr) ∧
    (∀ (cmd : String) (args : List Arg) (hw : Bool) (tm : Option String)
        (dl : Option (AhkM Unit)),
      (handleCall 0 cmd args hw tm dl).run env tr = (.ok Py.none, tr)) := by
  exact ⟨rfl, fun _ _ _ _ _ => rfl⟩

/-! ## C10 -/

/-- C10: whenever the style read yields no value (in particular for a
vanished or sentinel handle), `is_enabled` is `None` while `is_visible`
is `False` — the two style-bit properties use different neutral
values. -/
theorem c10_enabled_visible_neutral (w : Window) (env : Env) (tr tr2 : List Call)
    (h : (w.style).run env tr = (.ok Option.none, tr2)) :
    (w.is_enabled).run env tr = (.ok Option.none, tr2) ∧
    (w.is_visible).run env tr = (.ok false, tr2) := by
  constructor
  · show (w.style >>= fun st =>
      match st with
      | Option.none => pure Option.none
      | Option.some s =>
          pure (Option.some (!(Int.land s WindowStyle.DISABLED == WindowStyle.DISABLED)))).run
        env tr = _
    rw [run_bind, h]
    rfl
  · show (w.style >>= fun st =>
      match st with
      | Option.none => pure false
      | Option.some s => pure (Int.land s WindowStyle.VISIBLE == WindowStyle.VISIBLE)).run
        env tr = _
    rw [run_bind, h]
    rfl

/-- C10 witness: the invalid-sentinel window. -/
theorem c10_witness :
    ((Window.mk 0).style).run env0 [] = (.ok Option.none, []) ∧
    ((Window.mk 0).is_enabled).run env0 [] = (.ok Option.none, []) ∧
    ((Window.mk 0).is_visible).run env0 [] = (.ok false, []) :=
  ⟨rfl,
   (c10_enabled_visible_neutral (Window.mk 0) env0 [] [] rfl).1,
   (c10_enabled_visible_neutral (Window.mk 0) env0 [] [] rfl).2⟩

/-! ## C8 -/

/-- C8: the group name is a deterministic function of the spec's value
(Python's `hash` of a frozen dataclass is value-based, modelled as the
process's hash function `Env.pyHash`), so equal FilterSpecs give every
group action the same derived group name and the same run. -/
theorem c8_group_name_deterministic (env : Env) (tr : List Call)
    (s1 s2 : Windows) (cmd : String) (tmo : Option Rat) (h : s1 = s2) :
    groupName env.pyHash s1 = groupName env.pyHash s2 ∧
    (s1.group_action cmd tmo).run env tr = (s2.group_action cmd tmo).run env tr ∧
    (s1.close_all tmo).run env tr = (s2.close_all tmo).run env tr ∧
    (s1.kill_all tmo).run env tr = (s2.kill_all tmo).run env tr ∧
    (s1.maximize_all).run env tr = (s2.maximize_all).run env tr ∧
    (s1.minimize_all).run env tr = (s2.minimize_all).run env tr ∧
    (s1.hide_all).run env tr = (s2.hide_all).run env tr ∧
    (s1.show_all).run env tr = (s2.show_all).run env tr ∧
    (s1.restore_all).run env tr = (s2.restore_all).run env tr := by
  subst h
  exact ⟨rfl, rfl, rfl, rfl, rfl, rfl, rfl, rfl, rfl⟩

/-- C8 witness: two (syntactically built) equal specs. -/
theorem c8_witness :
    groupName env0.pyHash { windowsDefault with exe := FilterVal.value "np.exe" } =
      groupName env0.pyHash { windowsDefault with exe := FilterVal.value "np.exe" } ∧
    (({ windowsDefault with exe := FilterVal.value "np.exe" } : Windows).close_all
        Option.none).run env0 [] =
      (({ windowsDefault with exe := FilterVal.value "np.exe" } : Windows).close_all
        Option.none).run env0 [] :=
  ⟨(c8_group_name_deterministic env0 [] _ _ "WinClose" Option.none rfl).1,
   (c8_group_name_deterministic env0 [] _ _ "WinClose" Option.none rfl).2.2.1⟩

/-! ## C6 -/

/-- C6: a full scoped-settings run — enter, mutate the scoped copy, exit
normally or with the body raising — restores the ambient settings
reference to exactly the pre-entry one, and the settings object it
referred to is untouched (the body mutated only the fresh copy). -/
theorem c6_local_settings_restore (h : SettingsHeap) (amb : Nat)
    (mutate : Settings → Settings) (raises : Bool) (hval : amb < h.length) :
    (localSettingsRun h amb mutate raises).2.1 = amb ∧
    (localSettingsRun h amb mutate raises).1.fetch amb = h.fetch amb := by
  constructor
  · rfl
  · show ((h ++ [SettingsHeap.fetch h amb]).set h.length
        (mutate ((h ++ [SettingsHeap.fetch h amb]).getD h.length defaultSettings))).getD
        amb defaultSettings = h.getD amb defaultSettings
    have hne : h.length ≠ amb := Nat.ne_of_gt hval
    rw [List.getD_eq_getElem?_getD, List.getElem?_set_ne hne,
      List.getElem?_append_left hval, List.getD_eq_getElem?_getD]

/-- C6 witness: one allocated settings object, a body that zeroes the
window delay and then raises. -/
theorem c6_witness :
    0 < ([defaultSettings] : SettingsHeap).length ∧
    (localSettingsRun [defaultSettings] 0 (fun s => { s with win_delay := 0 }) true).2.1 = 0 ∧
    (localSettingsRun [defaultSettings] 0
        (fun s => { s with win_delay := 0 }) true).1.fetch 0 =
      SettingsHeap.fetch [defaultSettings] 0 :=
  ⟨by decide,
   (c6_local_settings_restore [defaultSettings] 0 (fun s => { s with win_delay := 0 })
      true (by decide)).1,
   (c6_local_settings_restore [defaultSettings] 0 (fun s => { s with win_delay := 0 })
      true (by decide)).2⟩

/-! ## C3 -/

/-- C3: `filter()` with every argument unconstrained returns the receiver
itself; in general every refining call builds a new value merging exactly
the non-unconstrained arguments (the receiver cannot change: the
embedding is of a frozen dataclass refined through
`dataclasses.replace`). -/
theorem c3_filter_refinement (spec : Windows) (t c : FilterVal String)
    (i p : FilterVal Int) (e x m : FilterVal String) (b : Bool) :
    spec.filter .unset .unset .unset .unset .unset .unset .unset = .ok spec ∧
    (m = .unset ∨ inTitleModes m = true →
      spec.filter t c i p e x m =
        .ok { spec with
              title := fdefault t spec.title
              class_name := fdefault c spec.class_name
              id := fdefault i spec.id
              pid := fdefault p spec.pid
              exe := fdefault e spec.exe
              text := fdefault x spec.text
              title_mode := mergeTitleMode m spec.title_mode }) ∧
    spec.exclude t x =
      { spec with
        exclude_title := fdefault t spec.exclude_title
        exclude_text := fdefault x spec.exclude_text } ∧
    spec.include_hidden_windows b = { spec with hidden_windows := b } ∧
    spec.exclude_hidden_windows = { spec with hidden_windows := false } ∧
    spec.include_hidden_text b = { spec with hidden_text := b } ∧
    spec.exclude_hidden_text = { spec with hidden_text := false } ∧
    spec.match_text_slow b = { spec with text_mode := if b then "slow" else "fast" } := by
  refine ⟨by simp [Windows.filter], ?_, ?_, rfl, rfl, rfl, rfl, by cases b <;> rfl⟩
  · intro hm
    have hvalid : ¬(m ≠ FilterVal.unset ∧ inTitleModes m = false) := by
      rcases hm with hm | hm
      · simp [hm]
      · simp [hm]
    unfold Windows.filter
    by_cases hall : t = FilterVal.unset ∧ c = FilterVal.unset ∧ i = FilterVal.unset ∧
        p = FilterVal.unset ∧ e = FilterVal.unset ∧ x = FilterVal.unset ∧
        m = FilterVal.unset
    · rw [if_pos hall]
      obtain ⟨h1, h2, h3, h4, h5, h6, h7⟩ := hall
      subst h1; subst h2; subst h3; subst h4; subst h5; subst h6; subst h7
      rfl
    · rw [if_neg hall, if_neg hvalid]
  · unfold Windows.exclude
    by_cases hboth : t = FilterVal.unset ∧ x = FilterVal.unset
    · rw [if_pos hboth]
      obtain ⟨h1, h2⟩ := hboth
      subst h1; subst h2
      rfl
    · rw [if_neg hboth]

/-- C3 witness: refine the default spec with a title and a valid match
mode. -/
theorem c3_witness :
    ((FilterVal.value "regex" : FilterVal String) = .unset ∨
      inTitleModes (.value "regex") = true) ∧
    windowsDefault.filter (.value "np") .unset .unset .unset .unset .unset
        (.value "regex") =
      .ok { windowsDefault with title := .value "np", title_mode := "regex" } :=
  ⟨Or.inr (by decide),
   (c3_filter_refinement windowsDefault (.value "np") .unset .unset .unset .unset
      .unset (.value "regex") true).2.1 (Or.inr (by decide))⟩

/-! ## C4 -/

/-- C4: an invalid `match` argument makes `filter` fail with the
configuration error before anything else happens (`filter` — and
`_set_title_match_mode` for an invalid stored mode — never issue a
backend command on the error path); a valid or omitted `match` never
raises. -/
theorem c4_invalid_match_mode (spec : Windows) (t c : FilterVal String)
    (i p : FilterVal Int) (e x m : FilterVal String) :
    (m ≠ .unset → inTitleModes m = false →
      spec.filter t c i p e x m =
        .error (.valueError (m.pyStr ++ " is not a valid title match mode"))) ∧
    (inTitleModes m = true → ∃ r, spec.filter t c i p e x m = .ok r) ∧
    spec.filter .unset .unset .unset .unset .unset .unset .unset = .ok spec ∧
    (∀ mode : String, mode ∉ TITLE_MATCH_MODES → ∀ (env : Env) (tr : List Call),
      (setTitleMatchMode mode).run env tr =
        (.error (.valueError (mode ++ " is not a valid title match mode")), tr)) := by
  refine ⟨?_, ?_, by simp [Windows.filter], ?_⟩
  · intro hne hbad
    unfold Windows.filter
    rw [if_neg (by intro hall; exact hne hall.2.2.2.2.2.2),
      if_pos ⟨hne, hbad⟩]
  · intro hgood
    have hne : m ≠ FilterVal.unset := by
      intro hu; rw [hu] at hgood; simp [inTitleModes] at hgood
    unfold Windows.filter
    rw [if_neg (by intro hall; exact hne hall.2.2.2.2.2.2),
      if_neg (by rintro ⟨_, hcon⟩; rw [hgood] at hcon; exact Bool.noConfusion hcon)]
    exact ⟨_, rfl⟩
  · intro mode hmode env tr
    have h1 : mode ≠ "startswith" := by intro h; exact hmode (by rw [h]; decide)
    have h2 : mode ≠ "contains" := by intro h; exact hmode (by rw [h]; decide)
    have h3 : mode ≠ "exact" := by intro h; exact hmode (by rw [h]; decide)
    have h4 : mode ≠ "regex" := by intro h; exact hmode (by rw [h]; decide)
    unfold setTitleMatchMode
    rw [if_neg h1, if_neg h2, if_neg h3, if_neg h4]
    rfl

/-- C4 witness: the invalid mode `"glob"` fails, the valid mode
`"contains"` succeeds. -/
theorem c4_witness :
    ((FilterVal.value "glob" : FilterVal String) ≠ .unset) ∧
    inTitleModes (.value "glob") = false ∧
    windowsDefault.filter .unset .unset .unset .unset .unset .unset (.value "glob") =
      .error (.valueError "glob is not a valid title match mode") ∧
    ("glob" : String) ∉ TITLE_MATCH_MODES ∧
    (setTitleMatchMode "glob").run env0 [] =
      (.error (.valueError "glob is not a valid title match mode"), []) :=
  ⟨by decide, by decide,
   (c4_invalid_match_mode windowsDefault .unset .unset .unset .unset .unset .unset
      (.value "glob")).1 (by decide) (by decide),
   by decide,
   (c4_invalid_match_mode windowsDefault .unset .unset .unset .unset .unset .unset
      (.value "glob")).2.2.2 "glob" (by decide) env0 []⟩

/-! ## C5 -/

theorem run_ahk_call_const (v : Py) (st : Settings) (hf : Windows → Int)
    (cmd : String) (args : List Arg) (tr : List Call) :
    (ahk_call cmd args).run (constEnv v st hf) tr = (.ok v, tr ++ [⟨cmd, args⟩]) := rfl

theorem exists_trace {α : Type} (r : Except Exc α × List Call) (x : Except Exc α)
    (h : r.1 = x) : ∃ tr2, r = (x, tr2) :=
  ⟨r.2, by rw [← h]⟩

theorem okRun_pure {α : Type} (a : α) (env : Env) : OkRun (pure a) env :=
  fun tr => ⟨a, tr, rfl⟩

theorem okRun_bind {α β : Type} {m : AhkM α} {f : α → AhkM β} {env : Env}
    (hm : OkRun m env) (hf : ∀ a, OkRun (f a) env) : OkRun (m >>= f) env := by
  intro tr
  obtain ⟨a, tr2, h⟩ := hm tr
  obtain ⟨b, tr3, h2⟩ := hf a tr2
  refine ⟨b, tr3, ?_⟩
  rw [run_bind, h]
  exact h2

theorem okRun_discard {α : Type} {m : AhkM α} {env : Env}
    (hm : OkRun m env) : OkRun (discard m) env := by
  intro tr
  obtain ⟨a, tr2, h⟩ := hm tr
  refine ⟨PUnit.unit, tr2, ?_⟩
  rw [run_discard, h]

theorem okRun_ite {α : Type} (c : Prop) [Decidable c] {m1 m2 : AhkM α} {env : Env}
    (h1 : OkRun m1 env) (h2 : OkRun m2 env) : OkRun (if c then m1 else m2) env := by
  by_cases hc : c
  · rw [if_pos hc]; exact h1
  · rw [if_neg hc]; exact h2

theorem okRun_ahk_call_const (v : Py) (st : Settings) (hf : Windows → Int)
    (cmd : String) (args : List Arg) : OkRun (ahk_call cmd args) (constEnv v st hf) :=
  fun tr => ⟨v, tr ++ [Call.mk cmd args], rfl⟩

theorem okRun_askEnv (env : Env) : OkRun askEnv env := fun tr => ⟨env, tr, rfl⟩

theorem okRun_setTitleMatchMode {mode : String} (hm : mode ∈ TITLE_MATCH_MODES)
    (v : Py) (st : Settings) (hf : Windows → Int) :
    OkRun (setTitleMatchMode mode) (constEnv v st hf) := by
  have hm2 : mode = "startswith" ∨ mode = "contains" ∨ mode = "exact" ∨
      mode = "regex" := by simpa [TITLE_MATCH_MODES] using hm
  rcases hm2 with h | h | h | h <;> subst h <;> exact fun tr => ⟨_, _, rfl⟩

theorem runsTo_bind {α β : Type} {m : AhkM α} {f : α → AhkM β} {env : Env}
    {x : Except Exc β} (hm : OkRun m env) (hf : ∀ a, RunsTo (f a) env x) :
    RunsTo (m >>= f) env x := by
  intro tr
  obtain ⟨a, tr2, h⟩ := hm tr
  obtain ⟨tr3, h2⟩ := hf a tr2
  refine ⟨tr3, ?_⟩
  rw [run_bind, h]
  exact h2

theorem runsTo_ahk_call_const (v : Py) (st : Settings) (hf : Windows → Int)
    (cmd : String) (args : List Arg) :
    RunsTo (ahk_call cmd args) (constEnv v st hf) (.ok v) :=
  fun tr => ⟨tr ++ [Call.mk cmd args], rfl⟩

/-- Embedding of `Windows._call` under a constant backend: the configure-then-command
sequence runs through and returns the backend's reply (or `None` for an
excluded-sentinel spec), raising nothing, provided the stored match modes
are valid. -/
theorem pyCall_const (spec : Windows) (cmd : String) (args : List Arg) (sd : Bool)
    (v : Py) (st : Settings) (hf : Windows → Int) (tr : List Call)
    (hm : spec.title_mode ∈ TITLE_MATCH_MODES)
    (ht : spec.text_mode = "fast" ∨ spec.text_mode = "slow") :
    ∃ tr2, (spec.pyCall cmd args sd).run (constEnv v st hf) tr =
      (.ok (if spec.queryingNone then Py.none else v), tr2) := by
  by_cases hq : spec.queryingNone = true
  · refine ⟨tr, ?_⟩
    rw [pyCall_queryingNone spec cmd args sd _ tr hq, hq]
    rfl
  · have hq2 : spec.queryingNone = false := by
      revert hq; cases spec.queryingNone <;> simp
    have key : RunsTo (spec.pyCall cmd args sd) (constEnv v st hf) (.ok v) := by
      unfold Windows.pyCall
      rw [hq2, if_neg (by decide)]
      apply runsTo_bind
      · unfold hiddenWindowsStep
        exact okRun_ite _ (okRun_discard (okRun_ahk_call_const v st hf _ _))
          (okRun_discard (okRun_ahk_call_const v st hf _ _))
      · intro _
        apply runsTo_bind
        · unfold hiddenTextStep
          exact okRun_ite _
            (okRun_ite _ (okRun_discard (okRun_ahk_call_const v st hf _ _))
              (okRun_discard (okRun_ahk_call_const v st hf _ _)))
            (okRun_pure _ _)
        · intro _
          apply runsTo_bind
          · exact okRun_setTitleMatchMode hm v st hf
          · intro _
            apply runsTo_bind
            · unfold textModeStep
              rcases ht with ht | ht <;> rw [ht]
              · rw [if_pos rfl]
                exact okRun_discard (okRun_ahk_call_const v st hf _ _)
              · rw [if_neg (by decide), if_pos rfl]
                exact okRun_discard (okRun_ahk_call_const v st hf _ _)
            · intro _
              apply runsTo_bind
              · unfold setDelayStep
                refine okRun_ite _ ?_ (okRun_pure _ _)
                exact okRun_bind (okRun_askEnv _)
                  (fun _ => okRun_discard (okRun_ahk_call_const v st hf _ _))
              · intro _
                exact runsTo_ahk_call_const v st hf cmd args
    obtain ⟨tr2, h⟩ := key tr
    refine ⟨tr2, ?_⟩
    rw [h, hq2]
    rfl

/-- C5: with a backend that reports a timeout on every wait command,
every timeout-capable wait operation returns its definite expiry value —
`Window(0)` for the `Windows` wait family, `True` for `wait_close` only
when the spec can match nothing, and `False` for every `Window`-level
wait — and none of them raises. -/
theorem c5_timeout_definite (spec : Windows) (w : Window) (tmo : Option Rat)
    (st : Settings) (hf : Windows → Int) (tr : List Call)
    (hm : spec.title_mode ∈ TITLE_MATCH_MODES)
    (ht : spec.text_mode = "fast" ∨ spec.text_mode = "slow")
    (hw : w.id ≠ 0) :
    ((spec.wait tmo).run (constEnv (Py.int 1) st hf) tr).1 = .ok ⟨0⟩ ∧
    ((spec.wait_active tmo).run (constEnv (Py.int 1) st hf) tr).1 = .ok ⟨0⟩ ∧
    ((spec.wait_inactive tmo).run (constEnv (Py.int 1) st hf) tr).1 = .ok ⟨0⟩ ∧
    ((spec.wait_close tmo).run (constEnv (Py.int 1) st hf) tr).1 =
      .ok spec.queryingNone ∧
    ((w.wait_active tmo).run (constEnv (Py.int 1) st hf) tr).1 = .ok false ∧
    ((w.wait_inactive tmo).run (constEnv (Py.int 1) st hf) tr).1 = .ok false ∧
    ((w.wait_close tmo).run (constEnv (Py.int 1) st hf) tr).1 = .ok false ∧
    ((w.wait_hidden tmo).run (constEnv (Py.int 1) st hf) tr).1 = .ok false := by
  have hwaits : ∀ c : String,
      ((spec.waitImpl c tmo).run (constEnv (Py.int 1) st hf) tr).1 = .ok ⟨0⟩ := by
    intro c
    obtain ⟨tr2, hrun⟩ := pyCall_const spec c
      ([Arg.s spec.include_.1, Arg.s spec.include_.2, timeoutOrEmpty tmo,
        Arg.s spec.exclude_.1, Arg.s spec.exclude_.2]) true (Py.int 1) st hf tr hm ht
    unfold Windows.waitImpl
    rw [run_bind, hrun]
    cases hq : spec.queryingNone <;> simp only [hq] at hrun ⊢ <;> rfl
  have hwclose :
      ((spec.wait_close tmo).run (constEnv (Py.int 1) st hf) tr).1 =
        .ok spec.queryingNone := by
    obtain ⟨tr2, hrun⟩ := pyCall_const spec "WinWaitClose"
      ([Arg.s spec.include_.1, Arg.s spec.include_.2, timeoutOrEmpty tmo,
        Arg.s spec.exclude_.1, Arg.s spec.exclude_.2]) true (Py.int 1) st hf tr hm ht
    unfold Windows.wait_close
    rw [run_bind, hrun]
    cases hq : spec.queryingNone <;> simp only [hq] at hrun ⊢ <;> rfl
  have hred : (if (true : Bool) = true then Option.some winDelayAct
      else Option.none) = Option.some winDelayAct := rfl
  have hwin : ∀ (c : String) (hidw : Bool), ∃ tr2,
      (handleCall w.id c (handleIncludeArgs w.id ++ [timeoutRaw tmo]) hidw
          Option.none (Option.some winDelayAct)).run
        (constEnv (Py.int 1) st hf) tr = (.ok (Py.int 1), tr2) := by
    intro c hidw
    apply exists_trace
    unfold handleCall
    rw [if_neg hw]
    cases hidw <;> rfl
  refine ⟨hwaits "WinWait", hwaits "WinWaitActive", hwaits "WinWaitNotActive",
    hwclose, ?_, ?_, ?_, ?_⟩
  · obtain ⟨tr2, h⟩ := hwin "WinWaitActive" true
    unfold Window.wait_active Window.call
    rw [hred, run_bind, h]
    rfl
  · obtain ⟨tr2, h⟩ := hwin "WinWaitNotActive" true
    unfold Window.wait_inactive Window.call
    rw [hred, run_bind, h]
    rfl
  · obtain ⟨tr2, h⟩ := hwin "WinWaitClose" true
    unfold Window.wait_close Window.call
    rw [hred, run_bind, h]
    rfl
  · obtain ⟨tr2, h⟩ := hwin "WinWaitClose" false
    unfold Window.wait_hidden Window.call
    rw [hred, run_bind, h]
    rfl

/-- C5 witness: the default spec and window 7 against the all-timeouts
backend. -/
theorem c5_witness :
    windowsDefault.title_mode ∈ TITLE_MATCH_MODES ∧
    (windowsDefault.text_mode = "fast" ∨ windowsDefault.text_mode = "slow") ∧
    ((7 : Int) ≠ 0) ∧
    ((windowsDefault.wait_active (Option.some (1 / 100))).run
        (constEnv (Py.int 1) defaultSettings (fun _ => 0)) []).1 = .ok ⟨0⟩ ∧
    (((Window.mk 7).wait_active (Option.some (1 / 100))).run
        (constEnv (Py.int 1) defaultSettings (fun _ => 0)) []).1 = .ok false :=
  ⟨by decide, Or.inl rfl, by decide,
   (c5_timeout_definite windowsDefault (Window.mk 7) (Option.some (1 / 100))
      defaultSettings (fun _ => 0) [] (by decide) (Or.inl rfl) (by decide)).2.1,
   (c5_timeout_definite windowsDefault (Window.mk 7) (Option.some (1 / 100))
      defaultSettings (fun _ => 0) [] (by decide) (Or.inl rfl) (by decide)).2.2.2.2.1⟩

/-! ## C2 -/

/-- C2 counterexample: on a spec whose `title` carries the excluded
sentinel, `wait_close` returns `True` — not `Window(0)`, not an empty
sequence, not zero, and not its timeout value `False` as the claim's
enumeration requires (the code comments that `not None` is intentional:
the awaited absence already holds). -/
theorem c2_wait_close_counterexample :
    (specTitleNone.wait_close Option.none).run env0 [] = (.ok true, []) ∧
    (Except.ok true : Except Exc Bool) ≠ .ok false :=
  ⟨rfl, fun h => Bool.noConfusion (Except.ok.inj h)⟩

/-- C2 (amended): once a filterable field carries the excluded sentinel,
every query and action on that spec returns its no-match result —
`Window(0)` for `exist`/`last`/`get_active` and the wait family, the
empty sequence for iteration, zero for `len`, `None` for plain actions,
and `True` for `wait_close` — without issuing a single backend command;
this depends only on the (immutable) spec value, hence holds
permanently. -/
theorem c2_excluded_sentinel_neutral (spec : Windows) (env : Env) (tr : List Call)
    (tmo : Option Rat) (hN : spec.queryingNone = true) :
    (spec.exist).run env tr = (.ok ⟨0⟩, tr) ∧
    (spec.last).run env tr = (.ok ⟨0⟩, tr) ∧
    (spec.get_active).run env tr = (.ok ⟨0⟩, tr) ∧
    (spec.iterate).run env tr = (.ok [], tr) ∧
    (spec.length).run env tr = (.ok 0, tr) ∧
    (spec.wait tmo).run env tr = (.ok ⟨0⟩, tr) ∧
    (spec.wait_active tmo).run env tr = (.ok ⟨0⟩, tr) ∧
    (spec.wait_inactive tmo).run env tr = (.ok ⟨0⟩, tr) ∧
    (spec.wait_close tmo).run env tr = (.ok true, tr) ∧
    (spec.close tmo).run env tr = (.ok PUnit.unit, tr) ∧
    (spec.hide).run env tr = (.ok PUnit.unit, tr) := by
  refine ⟨?_, ?_, ?_, ?_, ?_, ?_, ?_, ?_, ?_, ?_, ?_⟩
  · show (spec.pyCall "WinExist" (spec.query_.map Arg.s) false >>= fun v =>
      pure ⟨windowOf v⟩ : AhkM Window).run env tr = _
    rw [run_bind, pyCall_queryingNone spec _ _ _ env tr hN]
    rfl
  · show (spec.pyCall "WinGet" (Arg.s "IDLast" :: spec.query_.map Arg.s) false >>=
      fun v => pure ⟨windowOf v⟩ : AhkM Window).run env tr = _
    rw [run_bind, pyCall_queryingNone spec _ _ _ env tr hN]
    rfl
  · show (spec.pyCall "WinActive" (spec.activeQuery.map Arg.s) false >>= fun v =>
      pure ⟨windowOf v⟩ : AhkM Window).run env tr = _
    rw [run_bind, pyCall_queryingNone spec _ _ _ env tr hN]
    rfl
  · show (spec.pyCall "WinGet" (Arg.s "List" :: spec.query_.map Arg.s) false >>=
      fun v =>
        match v with
        | Py.none => pure []
        | Py.ids xs => pure (xs.map Window.mk)
        | _ => throwExc (.typeError "win_ids is not a collection") : AhkM (List Window)).run
      env tr = _
    rw [run_bind, pyCall_queryingNone spec _ _ _ env tr hN]
    rfl
  · show (spec.pyCall "WinGet" (Arg.s "Count" :: spec.query_.map Arg.s) false >>=
      fun v => pure (windowOf v) : AhkM Int).run env tr = _
    rw [run_bind, pyCall_queryingNone spec _ _ _ env tr hN]
    rfl
  · show (spec.waitImpl "WinWait" tmo).run env tr = _
    unfold Windows.waitImpl
    rw [run_bind, pyCall_queryingNone spec _ _ _ env tr hN]
    rfl
  · show (spec.waitImpl "WinWaitActive" tmo).run env tr = _
    unfold Windows.waitImpl
    rw [run_bind, pyCall_queryingNone spec _ _ _ env tr hN]
    rfl
  · show (spec.waitImpl "WinWaitNotActive" tmo).run env tr = _
    unfold Windows.waitImpl
    rw [run_bind, pyCall_queryingNone spec _ _ _ env tr hN]
    rfl
  · unfold Windows.wait_close
    rw [run_bind, pyCall_queryingNone spec _ _ _ env tr hN]
    rfl
  · unfold Windows.close
    rw [run_discard, pyCall_queryingNone spec _ _ _ env tr hN]
  · unfold Windows.hide
    rw [run_discard, pyCall_queryingNone spec _ _ _ env tr hN]

/-- C2 witness: the spec excluded by `title=None`, under a backend that
would answer every query (and is never consulted). -/
theorem c2_witness :
    specTitleNone.queryingNone = true ∧
    (specTitleNone.exist).run env0 [] = (.ok ⟨0⟩, []) ∧
    (specTitleNone.iterate).run env0 [] = (.ok [], []) ∧
    (specTitleNone.length).run env0 [] = (.ok 0, []) ∧
    (specTitleNone.wait (Option.some (1 / 100))).run env0 [] = (.ok ⟨0⟩, []) :=
  ⟨by decide,
   (c2_excluded_sentinel_neutral specTitleNone env0 [] (Option.some (1 / 100))
      (by decide)).1,
   (c2_excluded_sentinel_neutral specTitleNone env0 [] (Option.some (1 / 100))
      (by decide)).2.2.2.1,
   (c2_excluded_sentinel_neutral specTitleNone env0 [] (Option.some (1 / 100))
      (by decide)).2.2.2.2.1,
   (c2_excluded_sentinel_neutral specTitleNone env0 [] (Option.some (1 / 100))
      (by decide)).2.2.2.2.2.1⟩

/-! ## C7 -/

theorem append_eq_empty_iff (a b : String) : a ++ b = "" ↔ a = "" ∧ b = "" := by
  constructor
  · intro h
    have h2 := congrArg String.data h
    rw [String.data_append] at h2
    have h3 := List.append_eq_nil.mp h2
    exact ⟨String.ext h3.1, String.ext h3.2⟩
  · rintro ⟨ha, hb⟩
    rw [ha, hb]
    rfl

theorem strDefault_eq_empty (v : FilterVal String) :
    strDefault v = "" ↔ v = .unset ∨ v = .value "" := by
  cases v with
  | unset => simp [strDefault]
  | none =>
      simp only [strDefault, FilterVal.pyStr]
      constructor
      · intro h; exact absurd h (by decide)
      · rintro (h | h) <;> exact FilterVal.noConfusion h
  | value s => simp [strDefault, FilterVal.pyStr]

/-- The joined include fragment is empty exactly when the four
`ahk_`-prefixed fields are unconstrained and the title is unconstrained
or the empty string. -/
theorem include1_empty_iff (spec : Windows) :
    spec.include_.1 = "" ↔
      (spec.class_name = .unset ∧ spec.id = .unset ∧ spec.pid = .unset ∧
       spec.exe = .unset ∧ (spec.title = .unset ∨ spec.title = .value "")) := by
  obtain ⟨ti, cn, idf, pf, ex, tx, et, ext2, hw, ht, tm, xm⟩ := spec
  cases ti <;> cases cn <;> cases idf <;> cases pf <;> cases ex <;>
    simp [Windows.include_, joinSp, FilterVal.pyStr, FilterVal.pyStrInt,
      append_eq_empty_iff]

theorem include_snd (spec : Windows) : spec.include_.2 = strDefault spec.text := rfl

theorem exclude_fst (spec : Windows) :
    spec.exclude_.1 = strDefault spec.exclude_title := rfl

theorem exclude_snd (spec : Windows) :
    spec.exclude_.2 = strDefault spec.exclude_text := rfl

/-- The serialized query is all-empty exactly when the `ahk_`-prefixed
fields are unconstrained and title/text/exclusions are unconstrained or
empty strings. -/
theorem query_empty_iff (spec : Windows) :
    spec.query_ = ["", "", "", ""] ↔
      ((spec.class_name = .unset ∧ spec.id = .unset ∧ spec.pid = .unset ∧
        spec.exe = .unset ∧ (spec.title = .unset ∨ spec.title = .value "")) ∧
       (spec.text = .unset ∨ spec.text = .value "") ∧
       (spec.exclude_title = .unset ∨ spec.exclude_title = .value "") ∧
       (spec.exclude_text = .unset ∨ spec.exclude_text = .value "")) := by
  have hq : spec.query_ =
      [spec.include_.1, spec.include_.2, spec.exclude_.1, spec.exclude_.2] := rfl
  rw [hq, include_snd, exclude_fst, exclude_snd]
  simp only [List.cons.injEq, and_true]
  rw [include1_empty_iff, strDefault_eq_empty, strDefault_eq_empty, strDefault_eq_empty]

/-- C7 counterexample: the spec constrained by the empty-string title is
not the fully unconstrained spec, yet `get_active` sends the
active-window designator query `"A"` (the backend here answers 42 to the
designator query and 7 to every other `WinActive` query). -/
theorem c7_empty_title_counterexample :
    specEmptyTitle ≠ windowsDefault ∧
    ((specEmptyTitle.get_active).run envProbe []).1 = .ok ⟨42⟩ := by
  exact ⟨by decide, rfl⟩

/-- C7 (amended): `get_active` substitutes the active-window designator
exactly when the serialized query is all-empty — which holds for the
fully unconstrained spec but also for specs whose only constraints are
empty strings — and on a no-match backend reply it returns `Window(0)`. -/
theorem c7_active_query_amended (spec : Windows) (st : Settings)
    (hf : Windows → Int) (tr : List Call)
    (hm : spec.title_mode ∈ TITLE_MATCH_MODES)
    (ht : spec.text_mode = "fast" ∨ spec.text_mode = "slow") :
    (spec.query_ = ["", "", "", ""] ↔
      ((spec.class_name = .unset ∧ spec.id = .unset ∧ spec.pid = .unset ∧
        spec.exe = .unset ∧ (spec.title = .unset ∨ spec.title = .value "")) ∧
       (spec.text = .unset ∨ spec.text = .value "") ∧
       (spec.exclude_title = .unset ∨ spec.exclude_title = .value "") ∧
       (spec.exclude_text = .unset ∨ spec.exclude_text = .value ""))) ∧
    (spec.query_ = ["", "", "", ""] → spec.activeQuery = ["A", "", "", ""]) ∧
    (spec.query_ ≠ ["", "", "", ""] → spec.activeQuery = spec.query_) ∧
    windowsDefault.query_ = ["", "", "", ""] ∧
    ((spec.get_active).run (constEnv (Py.int 0) st hf) tr).1 = .ok ⟨0⟩ := by
  refine ⟨query_empty_iff spec, ?_, ?_, by decide, ?_⟩
  · intro h
    unfold Windows.activeQuery
    rw [if_pos h]
  · intro h
    unfold Windows.activeQuery
    rw [if_neg h]
  · obtain ⟨tr2, hrun⟩ := pyCall_const spec "WinActive" (spec.activeQuery.map Arg.s)
      false (Py.int 0) st hf tr hm ht
    unfold Windows.get_active
    rw [run_bind, hrun]
    cases hq : spec.queryingNone <;> simp only [hq] at hrun ⊢ <;> rfl

/-- C7 witness: the fully unconstrained spec under the no-match
backend. -/
theorem c7_witness :
    windowsDefault.title_mode ∈ TITLE_MATCH_MODES ∧
    (windowsDefault.text_mode = "fast" ∨ windowsDefault.text_mode = "slow") ∧
    windowsDefault.activeQuery = ["A", "", "", ""] ∧
    ((windowsDefault.get_active).run
        (constEnv (Py.int 0) defaultSettings (fun _ => 0)) []).1 = .ok ⟨0⟩ :=
  ⟨by decide, Or.inl rfl,
   (c7_active_query_amended windowsDefault defaultSettings (fun _ => 0) []
      (by decide) (Or.inl rfl)).2.1 (by decide),
   (c7_active_query_amended windowsDefault defaultSettings (fun _ => 0) []
      (by decide) (Or.inl rfl)).2.2.2.2⟩

/-! ## C9 -/

/-- C9: on the modelled one-window backend, `move(x=10, y=20)` followed by
a whole-rectangle read returns x=10, y=20 with width and height unchanged
from their pre-move values; the single-field accessors `x` and `width`
(each re-fetching the whole rectangle) agree. -/
theorem c9_move_then_rect (n x0 y0 w0 h0 : Int) (st : Settings) (hf : Windows → Int)
    (hn : n ≠ 0) :
    ((do
        (Window.mk n).move (Option.some 10) (Option.some 20) Option.none Option.none
        (Window.mk n).rect).run ⟨rectOracle n (x0, y0, w0, h0), st, hf⟩ []).1 =
      .ok (Option.some 10, Option.some 20, Option.some w0, Option.some h0) ∧
    ((do
        (Window.mk n).move (Option.some 10) (Option.some 20) Option.none Option.none
        (Window.mk n).x).run ⟨rectOracle n (x0, y0, w0, h0), st, hf⟩ []).1 =
      .ok (Option.some 10) ∧
    ((do
        (Window.mk n).move (Option.some 10) (Option.some 20) Option.none Option.none
        (Window.mk n).width).run ⟨rectOracle n (x0, y0, w0, h0), st, hf⟩ []).1 =
      .ok (Option.some w0) := by
  refine ⟨?_, ?_, ?_⟩ <;>
    simp [Window.move, Window.moveRaw, Window.call, handleCall, handleIncludeArgs,
      Window.rect, Window.get_pos, Window.x, Window.width, intDefault, winDelayAct,
      run_bind, run_discard, run_ahk_call, run_pure, run_askEnv, run_throw,
      rectOracle, applyMoveCall, applyArg, pyCoord, hn, List.foldl]

/-- C9 witness: window 3 starting at rectangle (1, 2, 640, 480). -/
theorem c9_witness :
    ((3 : Int) ≠ 0) ∧
    ((do
        (Window.mk 3).move (Option.some 10) (Option.some 20) Option.none Option.none
        (Window.mk 3).rect).run
      ⟨rectOracle 3 (1, 2, 640, 480), defaultSettings, fun _ => 0⟩ []).1 =
      .ok (Option.some 10, Option.some 20, Option.some 640, Option.some 480) :=
  ⟨by decide,
   (c9_move_then_rect 3 1 2 640 480 defaultSettings (fun _ => 0) (by decide)).1⟩
